import Mathlib

/-!
Shallow embedding of the flow-control and stream-bookkeeping core of the
`spdy` package (files `flow.go` and the shared constants/state file).

Go machine integers are modelled as `Nat` (for `uint8`/`uint32` values) and
`Int` (for `int64` values), with explicit `% 2^32` where Go's conversion or
overflow semantics matter.  Byte slices are `List Nat`; the outbound frame
channel is modelled by returning the list of frames sent, in send order.

`CheckInitialWindow` consults the connection's negotiated initial window
size; it is the identity on the flow-control state whenever that size equals
the state's `initialWindow` (the steady state, and the only case the claims
below quantify over), so the embedding of `Flush` and `Write` takes the
state after that no-op.
-/

namespace Spdy

/-- RST_STREAM status code `RST_STREAM_FLOW_CONTROL_ERROR = 7`. -/
def RST_STREAM_FLOW_CONTROL_ERROR : Nat := 7

/-- `MAX_TRANSFER_WINDOW_SIZE = 0x80000000` (2^31). -/
def MAX_TRANSFER_WINDOW_SIZE : Int := 0x80000000

/-- `NO_STREAM_LIMIT = 0x80000000` (2^31). -/
def NO_STREAM_LIMIT : Nat := 0x80000000

/-- `MAX_DATA_SIZE = 0xffffff`. -/
def MAX_DATA_SIZE : Nat := 0xffffff

/-- Frames that the flow-control code can place on the `output` channel:
`dataFrameV3`, `rstStreamFrameV3` and `windowUpdateFrameV3`, each carrying
the fields the flow-control code sets. -/
inductive Frame where
  | data (streamID : Nat) (payload : List Nat)
  | rstStream (streamID : Nat) (status : Nat)
  | windowUpdate (streamID : Nat) (deltaWindowSize : Nat)
deriving DecidableEq, Repr

/-- The `flowControl` struct of `flow.go` (mutex and object references
dropped; the `output` channel is modelled as returned frame lists, and the
pluggable `flowControl FlowControl` policy is passed explicitly to the
operation that consults it). -/
structure flowControl where
  streamID : Nat
  initialWindow : Nat
  transferWindow : Int
  sent : Nat
  buffer : List (List Nat)
  constrained : Bool
  initialWindowThere : Nat
  transferWindowThere : Int
deriving DecidableEq, Repr

/-- `DefaultFlowControl.ReceiveData`: if the new window is below half the
initial window, return `uint32(int64(initialWindowSize) - newWindowSize)`,
else `0`.  The Go `uint32(_)` conversion keeps the low 32 bits; the
difference is positive whenever the branch is taken, so it is
`(difference).toNat % 2^32`. -/
def DefaultFlowControl.ReceiveData (initialWindowSize : Nat)
    (newWindowSize : Int) : Nat :=
  if newWindowSize < (initialWindowSize : Int) / 2 then
    ((initialWindowSize : Int) - newWindowSize).toNat % 2 ^ 32
  else
    0

/-- The loop of `flowControl.Flush` (`flow.go` lines 199-213), verbatim:
index `i` walks forward while fully-consumed entries are also dropped from
the front of `buffer` (`f.buffer = f.buffer[1:]`).  Returns the bytes
collected into `out`, the remaining buffer, and the remaining `left`.
The structural `fuel` argument is started at `buffer.length`; every
recursive call shortens `buffer` by one, so fuel can only run out when the
buffer is empty, where the loop guard `i < len(buffer)` exits anyway —
the fuel-0 case returns exactly what that guard returns. -/
def flushLoop : Nat → List (List Nat) → Nat → Int → List Nat →
    List Nat × List (List Nat) × Int
  | 0, buffer, _, left, out => (out, buffer, left)
  | fuel + 1, buffer, i, left, out =>
    if h : i < buffer.length then
      let bi := buffer.get ⟨i, h⟩
      if (bi.length : Int) ≤ left then
        let out' := out ++ bi
        let left' := left - bi.length
        let buffer' := buffer.tail
        if left' = 0 then (out', buffer', left')
        else flushLoop fuel buffer' (i + 1) left' out'
      else
        (out ++ bi.take left.toNat, buffer.set i (bi.drop left.toNat), 0)
    else
      (out, buffer, left)

/-- `flowControl.Flush` (after the `CheckInitialWindow` no-op): if not
constrained, or the transfer window is zero, do nothing; otherwise run the
drain loop, debit the window by the bytes collected, clear `constrained`
when the window is still positive, and emit one DATA frame with the
collected bytes. -/
def flowControl.Flush (f : flowControl) : flowControl × List Frame :=
  if !f.constrained || f.transferWindow = 0 then (f, [])
  else
    let r := flushLoop f.buffer.length f.buffer 0 f.transferWindow []
    let out := r.1
    let buffer' := r.2.1
    let tw := f.transferWindow - out.length
    let constrained' := if tw > 0 then false else f.constrained
    ({ f with buffer := buffer', transferWindow := tw,
              constrained := constrained' },
     [Frame.data f.streamID out])

/-- `flowControl.UpdateWindow`: reject a delta that would push the transfer
window above `MAX_TRANSFER_WINDOW_SIZE` (returning the error message and an
unchanged state), otherwise grow the window and `Flush`. -/
def flowControl.UpdateWindow (f : flowControl) (deltaWindowSize : Nat) :
    Option String × flowControl × List Frame :=
  if (deltaWindowSize : Int) + f.transferWindow > MAX_TRANSFER_WINDOW_SIZE then
    (some "Error: WINDOW_UPDATE delta window size overflows transfer window size.",
     f, [])
  else
    let r := flowControl.Flush { f with
      transferWindow := f.transferWindow + (deltaWindowSize : Int) }
    (none, r.1, r.2)

/-- `flowControl.Receive`: emit RST_STREAM(FLOW_CONTROL_ERROR) if the
receive window is already negative — and then, with no early return, still
debit the window by the data length, consult the flow-control policy, and
emit a WINDOW_UPDATE (growing the window back) when the policy returns a
nonzero delta.  The pluggable policy is passed as `fc`, taking the initial
window size and the new window size (the stream ID argument is dropped:
every policy in the source ignores it). -/
def flowControl.Receive (fc : Nat → Int → Nat) (f : flowControl)
    (data : List Nat) : flowControl × List Frame :=
  let rstFrames :=
    if f.transferWindowThere < 0 then
      [Frame.rstStream f.streamID RST_STREAM_FLOW_CONTROL_ERROR]
    else []
  let twt := f.transferWindowThere - (data.length : Int)
  let delta := fc f.initialWindowThere twt
  if delta ≠ 0 then
    ({ f with transferWindowThere := twt + (delta : Int) },
     rstFrames ++ [Frame.windowUpdate f.streamID delta])
  else
    ({ f with transferWindowThere := twt }, rstFrames)

/-- `flowControl.Write` (after the `CheckInitialWindow` no-op), for a state
whose `buffer` and `stream` are live.  Returns the new state, the frames
sent (a `Flush` data frame first when the state was constrained, then the
write's own DATA frame if any), and the `(int, error)` result. -/
def flowControl.Write (f : flowControl) (data : List Nat) :
    flowControl × List Frame × (Nat × Option String) :=
  let l := data.length
  if l = 0 then (f, [], (0, none))
  else
    let fr := if f.constrained then flowControl.Flush f else (f, [])
    let f₁ := fr.1
    let flushFrames := fr.2
    let window : Nat := if f₁.transferWindow < 0 then 0 else f₁.transferWindow.toNat
    if data.length > window then
      let f₂ := { f₁ with
        buffer := f₁.buffer ++ [data.drop window],
        sent := (f₁.sent + window) % 2 ^ 32,
        transferWindow := f₁.transferWindow - (window : Int),
        constrained := true }
      let sendData := data.take window
      if sendData.length = 0 then (f₂, flushFrames, (l, none))
      else (f₂, flushFrames ++ [Frame.data f.streamID sendData], (l, none))
    else
      (f₁, flushFrames ++ [Frame.data f.streamID data], (l, none))

/-- Result of the three `AddFlowControl` variants on a fresh stream
(`s.flow == nil`, connection lookup succeeding): the common fields set by
all three, parameterised by what each assigns to `transferWindowThere`.
`connInitialWindow` is `conn.InitialWindowSize()`; `fInitial` is
`f.InitialWindowSize()` for the supplied `FlowControl`. -/
def mkFlowControl (streamID connInitialWindow fInitial : Nat)
    (twt : Int) : flowControl :=
  { streamID := streamID
    initialWindow := connInitialWindow
    transferWindow := (connInitialWindow : Int)
    sent := 0
    buffer := []
    constrained := false
    initialWindowThere := fInitial
    transferWindowThere := twt }

/-- `serverStreamV3.AddFlowControl`: sets
`transferWindowThere = int64(initialWindowThere)`. -/
def serverStreamV3.AddFlowControl (streamID connInitialWindow fInitial : Nat) :
    flowControl :=
  mkFlowControl streamID connInitialWindow fInitial (fInitial : Int)

/-- `pushStreamV3.AddFlowControl`: line 119 reads
`p.flow.transferWindowThere = int64(p.flow.transferWindowThere)` — a
self-assignment of the freshly zero-initialised field, so the receive
window stays `0` instead of `int64(initialWindowThere)`. -/
def pushStreamV3.AddFlowControl (streamID connInitialWindow fInitial : Nat) :
    flowControl :=
  mkFlowControl streamID connInitialWindow fInitial 0

/-- `clientStreamV3.AddFlowControl`: sets
`transferWindowThere = int64(initialWindowThere)`. -/
def clientStreamV3.AddFlowControl (streamID connInitialWindow fInitial : Nat) :
    flowControl :=
  mkFlowControl streamID connInitialWindow fInitial (fInitial : Int)

/-! ## Stream state machine (`StreamState`) -/

def STATE_OPEN : Nat := 0
def STATE_HALF_CLOSED_HERE : Nat := 1
def STATE_HALF_CLOSED_THERE : Nat := 2
def STATE_CLOSED : Nat := 3

/-- `StreamState.Close`: unconditionally `CLOSED`. -/
def StreamState.Close (_ : Nat) : Nat := STATE_CLOSED

/-- `StreamState.CloseHere`: OPEN ↦ HALF_CLOSED_HERE,
HALF_CLOSED_THERE ↦ CLOSED, anything else unchanged. -/
def StreamState.CloseHere (s : Nat) : Nat :=
  if s = STATE_OPEN then STATE_HALF_CLOSED_HERE
  else if s = STATE_HALF_CLOSED_THERE then STATE_CLOSED
  else s

/-- `StreamState.CloseThere`: OPEN ↦ HALF_CLOSED_THERE,
HALF_CLOSED_HERE ↦ CLOSED, anything else unchanged. -/
def StreamState.CloseThere (s : Nat) : Nat :=
  if s = STATE_OPEN then STATE_HALF_CLOSED_THERE
  else if s = STATE_HALF_CLOSED_HERE then STATE_CLOSED
  else s

/-- One of the three state-changing operations on a `StreamState`. -/
inductive StreamOp where
  | closeHere
  | closeThere
  | close
deriving DecidableEq, Repr

/-- Apply one operation. -/
def StreamOp.apply : StreamOp → Nat → Nat
  | StreamOp.closeHere, s => StreamState.CloseHere s
  | StreamOp.closeThere, s => StreamState.CloseThere s
  | StreamOp.close, _ => STATE_CLOSED

/-- Apply a sequence of operations, first element first. -/
def StreamOp.applyAll (ops : List StreamOp) (s : Nat) : Nat :=
  ops.foldl (fun s op => StreamOp.apply op s) s

/-! ## Stream limiter (`streamLimit`) -/

/-- `streamLimit.Add` on the `(limit, current)` pair of `uint32` counters:
refuse when `current ≥ limit`, else increment (the increment cannot wrap:
`current < limit ≤ 2^32 − 1`).  Returns the admission verdict and the new
`current`. -/
def streamLimit.Add (limit current : Nat) : Bool × Nat :=
  if current ≥ limit then (false, current)
  else (true, (current + 1) % 2 ^ 32)

/-- `streamLimit.Close`: `s.current--` with `uint32` wrap-around and no
lower-bound check. -/
def streamLimit.Close (current : Nat) : Nat :=
  (current + 2 ^ 32 - 1) % 2 ^ 32

/-! ## Version advertisement (`supportedVersions`, `NpnStrings`) -/

/-- The default `supportedVersions` map keys: versions 2 and 3. -/
def supportedVersions : List Nat := [2, 3]

/-- Insert into a descending-sorted list. -/
def insertDesc (v : Nat) : List Nat → List Nat
  | [] => [v]
  | x :: xs => if v ≥ x then v :: x :: xs else x :: insertDesc v xs

/-- Sort descending (`sort.Sort(sort.Reverse(sort.IntSlice(s)))`; the
result on distinct keys is the unique descending arrangement, independent
of map iteration order). -/
def sortDesc : List Nat → List Nat
  | [] => []
  | x :: xs => insertDesc x (sortDesc xs)

/-- `SupportedVersions()`: the supported version numbers, most recent
first. -/
def SupportedVersions : List Nat := sortDesc supportedVersions

/-- `NpnStrings()`: `"spdy/%d"` for each supported version in
`SupportedVersions()` order, then `"http/1.1"`. -/
def NpnStrings : List String :=
  (SupportedVersions.map (fun v => "spdy/" ++ toString v)) ++ ["http/1.1"]

/-! ## Concrete states used to evaluate the operations -/

/-- A constrained state holding three one-byte buffer entries, with a
transfer window (10) large enough for all of them. -/
def c1Flow : flowControl :=
  { streamID := 1, initialWindow := 100, transferWindow := 10, sent := 0,
    buffer := [[1], [2], [3]], constrained := true,
    initialWindowThere := 100, transferWindowThere := 100 }

/-- A state whose receive-side window is already negative. -/
def c2Flow : flowControl :=
  { streamID := 1, initialWindow := 100, transferWindow := 10, sent := 0,
    buffer := [], constrained := false,
    initialWindowThere := 65535, transferWindowThere := -1 }

/-- An unconstrained state with live buffer and transfer window 10. -/
def c4Flow : flowControl :=
  { streamID := 1, initialWindow := 100, transferWindow := 10, sent := 0,
    buffer := [], constrained := false,
    initialWindowThere := 100, transferWindowThere := 100 }

/-- An unconstrained state with transfer window 10. -/
def c5Flow : flowControl :=
  { streamID := 1, initialWindow := 10, transferWindow := 10, sent := 0,
    buffer := [], constrained := false,
    initialWindowThere := 10, transferWindowThere := 10 }

end Spdy

namespace Spdy

/-! ## Theorems -/

/-- C1: refuted on the code.  On a constrained state with positive transfer
window 10 and buffer `[[1],[2],[3]]` (three bytes, all of which fit the
window), `Flush` emits the DATA frame `[1, 3]` — not a prefix of the
buffered bytes `[1, 2, 3]` — leaves `[[3]]` in the buffer (so byte `2` is
lost and byte `3` is both emitted and kept), and clears `constrained` even
though the buffer is not empty.  The emitted bytes concatenated with the
bytes left in the buffer do not equal the bytes buffered before the
call. -/
theorem flush_drops_and_duplicates_buffered_bytes :
    (flowControl.Flush c1Flow).2 = [Frame.data 1 [1, 3]] ∧
    (flowControl.Flush c1Flow).1.buffer = [[3]] ∧
    (flowControl.Flush c1Flow).1.constrained = false ∧
    (flowControl.Flush c1Flow).1.transferWindow = 8 ∧
    [1, 3] ++ [3] ≠ [1, 2, 3] := by
  decide

/-- C2: refuted on the code.  With the receive window already negative
(`transferWindowThere = -1`, default policy, initial window 65535),
`Receive` of one byte emits the RST_STREAM(FLOW_CONTROL_ERROR) frame but
does not stop: it still debits the window by the data length, consults the
flow-control policy, emits a WINDOW_UPDATE frame with delta 65537, and
leaves the window regrown to 65535. -/
theorem receive_negative_window_keeps_going :
    (flowControl.Receive DefaultFlowControl.ReceiveData c2Flow [0]).2 =
      [Frame.rstStream 1 RST_STREAM_FLOW_CONTROL_ERROR,
       Frame.windowUpdate 1 65537] ∧
    (flowControl.Receive DefaultFlowControl.ReceiveData c2Flow [0]).1.transferWindowThere
      = 65535 := by
  decide

/-- C3: refuted on the code for `pushStreamV3`.  With
`f.InitialWindowSize() = 65536`, the server and client variants set
`transferWindowThere = 65536`, but the push variant's self-assignment
leaves `transferWindowThere = 0 ≠ int64(initialWindowThere)`. -/
theorem push_add_flow_control_zero_receive_window :
    (serverStreamV3.AddFlowControl 1 65536 65536).transferWindowThere = 65536 ∧
    (clientStreamV3.AddFlowControl 1 65536 65536).transferWindowThere = 65536 ∧
    (pushStreamV3.AddFlowControl 2 65536 65536).initialWindowThere = 65536 ∧
    (pushStreamV3.AddFlowControl 2 65536 65536).transferWindowThere = 0 ∧
    (0 : Int) ≠ 65536 := by
  decide

/-- C4: refuted on the code in the uncontested path.  Writing 5 bytes with
transfer window `W = 10 ≥ N = 5` returns `(5, nil)` and sends the whole
slice as one DATA frame, but leaves `transferWindow` at 10: the code debits
the window (`f.transferWindow -= int64(window)`) only inside the
`len(data) > window` buffering branch, so a fast-path send does not
decrease the window by the bytes sent. -/
theorem write_fast_path_does_not_debit_window :
    (flowControl.Write c4Flow [1, 2, 3, 4, 5]).2.1 =
      [Frame.data 1 [1, 2, 3, 4, 5]] ∧
    (flowControl.Write c4Flow [1, 2, 3, 4, 5]).2.2 = (5, none) ∧
    (flowControl.Write c4Flow [1, 2, 3, 4, 5]).1.transferWindow = 10 ∧
    (flowControl.Write c4Flow [1, 2, 3, 4, 5]).1.sent = 0 ∧
    (10 : Int) ≠ 10 - 5 := by
  decide

/-- C5: `UpdateWindow` errors exactly when
`int64(delta) + transferWindow > MAX_TRANSFER_WINDOW_SIZE`; on error the
state is unchanged (and nothing is sent), and otherwise the transfer
window is increased by exactly `delta` and only then flushed. -/
theorem updateWindow_overflow_check (f : flowControl) (delta : Nat) :
    ((flowControl.UpdateWindow f delta).1.isSome ↔
      (delta : Int) + f.transferWindow > MAX_TRANSFER_WINDOW_SIZE) ∧
    ((delta : Int) + f.transferWindow > MAX_TRANSFER_WINDOW_SIZE →
      (flowControl.UpdateWindow f delta).2.1 = f ∧
      (flowControl.UpdateWindow f delta).2.2 = []) ∧
    ((delta : Int) + f.transferWindow ≤ MAX_TRANSFER_WINDOW_SIZE →
      (flowControl.UpdateWindow f delta).1 = none ∧
      (flowControl.UpdateWindow f delta).2 =
        flowControl.Flush
          { f with transferWindow := f.transferWindow + (delta : Int) }) := by
  refine ⟨?_, ?_, ?_⟩ <;>
    simp only [flowControl.UpdateWindow] <;>
    split <;>
    simp_all

/-- Witness for C5: at the concrete unconstrained state `c5Flow` and
delta 3 the no-overflow hypothesis holds, no error is returned, and the
result is the flush of the window grown by exactly 3. -/
theorem updateWindow_overflow_check_witness :
    ((3 : Nat) : Int) + c5Flow.transferWindow ≤ MAX_TRANSFER_WINDOW_SIZE ∧
    ((flowControl.UpdateWindow c5Flow 3).1 = none ∧
      (flowControl.UpdateWindow c5Flow 3).2 =
        flowControl.Flush
          { c5Flow with transferWindow := c5Flow.transferWindow + ((3 : Nat) : Int) }) :=
  ⟨by decide, (updateWindow_overflow_check c5Flow 3).2.2 (by decide)⟩

/-- Helper: every stream-state operation fixes `STATE_CLOSED`. -/
theorem streamOp_apply_closed (op : StreamOp) :
    StreamOp.apply op STATE_CLOSED = STATE_CLOSED := by
  cases op <;> decide

/-- Helper: a stream that has reached `STATE_CLOSED` stays there under any
sequence of `CloseHere` / `CloseThere` / `Close` operations. -/
theorem applyAll_closed (ops : List StreamOp) :
    StreamOp.applyAll ops STATE_CLOSED = STATE_CLOSED := by
  induction ops with
  | nil => rfl
  | cons op ops ih =>
    simp only [StreamOp.applyAll, List.foldl] at ih ⊢
    rw [streamOp_apply_closed]
    exact ih

/-- C6: the stream state machine.  `CloseHere` maps OPEN to
HALF_CLOSED_HERE and HALF_CLOSED_THERE to CLOSED and fixes every other
state; `CloseThere` maps OPEN to HALF_CLOSED_THERE and HALF_CLOSED_HERE to
CLOSED and fixes every other state; `Close` always yields CLOSED; and
CLOSED is absorbing for every sequence of the three operations. -/
theorem stream_state_transitions :
    StreamState.CloseHere STATE_OPEN = STATE_HALF_CLOSED_HERE ∧
    StreamState.CloseHere STATE_HALF_CLOSED_THERE = STATE_CLOSED ∧
    (∀ s : Nat, s ≠ STATE_OPEN → s ≠ STATE_HALF_CLOSED_THERE →
      StreamState.CloseHere s = s) ∧
    StreamState.CloseThere STATE_OPEN = STATE_HALF_CLOSED_THERE ∧
    StreamState.CloseThere STATE_HALF_CLOSED_HERE = STATE_CLOSED ∧
    (∀ s : Nat, s ≠ STATE_OPEN → s ≠ STATE_HALF_CLOSED_HERE →
      StreamState.CloseThere s = s) ∧
    (∀ s : Nat, StreamState.Close s = STATE_CLOSED) ∧
    (∀ ops : List StreamOp, StreamOp.applyAll ops STATE_CLOSED = STATE_CLOSED) := by
  refine ⟨by decide, by decide, ?_, by decide, by decide, ?_, fun s => rfl,
    applyAll_closed⟩
  · intro s h1 h2
    simp [StreamState.CloseHere, h1, h2]
  · intro s h1 h2
    simp [StreamState.CloseThere, h1, h2]

/-- Witness for C6: state 1 (HALF_CLOSED_HERE) is neither OPEN nor
HALF_CLOSED_THERE and is fixed by `CloseHere`, and a concrete operation
sequence leaves CLOSED closed. -/
theorem stream_state_transitions_witness :
    ((1 : Nat) ≠ STATE_OPEN ∧ (1 : Nat) ≠ STATE_HALF_CLOSED_THERE ∧
      StreamState.CloseHere 1 = 1) ∧
    StreamOp.applyAll
      [StreamOp.closeHere, StreamOp.close, StreamOp.closeThere] STATE_CLOSED
      = STATE_CLOSED :=
  ⟨⟨by decide, by decide,
     stream_state_transitions.2.2.1 1 (by decide) (by decide)⟩,
   stream_state_transitions.2.2.2.2.2.2.2
     [StreamOp.closeHere, StreamOp.close, StreamOp.closeThere]⟩

/-- C7: `streamLimit.Add` refuses and leaves the counter unchanged when
`current ≥ limit`, otherwise increments by exactly one and admits; hence
`current ≤ limit` is preserved. -/
theorem streamLimit_add_respects_limit (limit current : Nat)
    (h32 : limit < 2 ^ 32) :
    (current ≥ limit → streamLimit.Add limit current = (false, current)) ∧
    (current < limit → streamLimit.Add limit current = (true, current + 1)) ∧
    (current ≤ limit → (streamLimit.Add limit current).2 ≤ limit) := by
  refine ⟨?_, ?_, ?_⟩ <;> intro h <;>
    simp only [streamLimit.Add] <;> split <;> simp_all <;> omega

/-- Witness for C7: with limit 8 (a valid `uint32`) and counter 3, Add
admits and moves the counter to 4 ≤ 8. -/
theorem streamLimit_add_respects_limit_witness :
    (8 : Nat) < 2 ^ 32 ∧ (3 : Nat) < 8 ∧
    streamLimit.Add 8 3 = (true, 4) ∧ (streamLimit.Add 8 3).2 ≤ 8 :=
  ⟨by decide, by decide,
   (streamLimit_add_respects_limit 8 3 (by decide)).2.1 (by decide),
   (streamLimit_add_respects_limit 8 3 (by decide)).2.2 (by decide)⟩

/-- C8: refuted as universally stated.  At `W = 65535` and
`c = -(2^32)` (a negative `int64` below `W/2`), `ReceiveData` returns
65535 — the `uint32` truncation of `W − c` — while the claimed exact delta
`W − c = 4295032831` does not fit a `uint32`. -/
theorem receiveData_truncates_counterexample :
    (-(2 ^ 32) : Int) < (65535 : Int) / 2 ∧
    DefaultFlowControl.ReceiveData 65535 (-(2 ^ 32)) = 65535 ∧
    (65535 : Int) - (-(2 ^ 32)) = 4295032831 ∧
    ((DefaultFlowControl.ReceiveData 65535 (-(2 ^ 32)) : Nat) : Int) ≠
      (65535 : Int) - (-(2 ^ 32)) := by
  decide

/-- C8 amended: when `c < W/2` the returned delta is `(W − c) mod 2^32`
(the `uint32` truncation of the `int64` difference), which equals `W − c`
whenever that difference fits a `uint32`; otherwise the delta is 0. -/
theorem receiveData_regrow_delta (W : Nat) (c : Int) :
    (c < (W : Int) / 2 →
      ((DefaultFlowControl.ReceiveData W c : Nat) : Int) =
        ((W : Int) - c) % 2 ^ 32) ∧
    (c < (W : Int) / 2 → (W : Int) - c < 2 ^ 32 →
      ((DefaultFlowControl.ReceiveData W c : Nat) : Int) = (W : Int) - c) ∧
    ((W : Int) / 2 ≤ c → DefaultFlowControl.ReceiveData W c = 0) := by
  have hpos : c < (W : Int) / 2 → 0 ≤ (W : Int) - c := by omega
  refine ⟨?_, ?_, ?_⟩
  · intro h
    simp only [DefaultFlowControl.ReceiveData, if_pos h]
    push_cast
    rw [Int.toNat_of_nonneg (hpos h)]
  · intro h hfit
    simp only [DefaultFlowControl.ReceiveData, if_pos h]
    have := hpos h
    push_cast
    rw [Int.toNat_of_nonneg this]
    omega
  · intro h
    simp only [DefaultFlowControl.ReceiveData]
    rw [if_neg (by omega)]

/-- Witness for C8 amended: at `W = 65535`, `c = -100` the branch
hypothesis and the fits-in-uint32 hypothesis hold, and the delta is exactly
`W − c`. -/
theorem receiveData_regrow_delta_witness :
    (-100 : Int) < (65535 : Int) / 2 ∧
    (65535 : Int) - (-100 : Int) < 2 ^ 32 ∧
    ((DefaultFlowControl.ReceiveData 65535 (-100) : Nat) : Int) =
      (65535 : Int) - (-100 : Int) :=
  ⟨by decide, by decide,
   (receiveData_regrow_delta 65535 (-100)).2.1 (by decide) (by decide)⟩

/-- C9: refuted as stated.  With the default supported versions the NPN
list has three tokens and does not contain `spdy/3.1`, so it is not the
claimed four-token list. -/
theorem npn_strings_counterexample :
    NpnStrings ≠ ["spdy/3.1", "spdy/3", "spdy/2", "http/1.1"] ∧
    ¬ "spdy/3.1" ∈ NpnStrings := by
  decide

/-- C9 amended: with the default set of supported versions (2 and 3),
`NpnStrings()` returns exactly `spdy/3`, `spdy/2` ordered most recent
first, followed by `http/1.1` as the final fallback element. -/
theorem npn_strings_default :
    NpnStrings = ["spdy/3", "spdy/2", "http/1.1"] := by
  decide

/-- C10: `streamLimit.Close` decrements without a lower bound: on a zero
counter the `uint32` wraps to `2^32 − 1`, after which `Add` refuses for
every limit up to and including `NO_STREAM_LIMIT`; on any positive
`uint32` counter it decrements by exactly one. -/
theorem streamLimit_close_underflow (limit : Nat)
    (h : limit ≤ NO_STREAM_LIMIT) :
    streamLimit.Close 0 = 2 ^ 32 - 1 ∧
    streamLimit.Add limit (streamLimit.Close 0) = (false, 2 ^ 32 - 1) ∧
    (∀ c : Nat, 0 < c → c < 2 ^ 32 → streamLimit.Close c = c - 1) := by
  refine ⟨by decide, ?_, ?_⟩
  · have h1 : streamLimit.Close 0 = 2 ^ 32 - 1 := by decide
    rw [h1]
    simp only [streamLimit.Add, NO_STREAM_LIMIT] at *
    rw [if_pos (by omega)]
  · intro c hc hc32
    simp only [streamLimit.Close]
    omega

/-- Witness for C10: the disabled-limit sentinel itself satisfies the
hypothesis, and admission is refused after the underflow. -/
theorem streamLimit_close_underflow_witness :
    NO_STREAM_LIMIT ≤ NO_STREAM_LIMIT ∧
    streamLimit.Add NO_STREAM_LIMIT (streamLimit.Close 0) = (false, 2 ^ 32 - 1) ∧
    (0 : Nat) < 1 ∧ (1 : Nat) < 2 ^ 32 ∧ streamLimit.Close 1 = 0 :=
  ⟨Nat.le_refl _,
   (streamLimit_close_underflow NO_STREAM_LIMIT (Nat.le_refl _)).2.1,
   by decide, by decide,
   (streamLimit_close_underflow NO_STREAM_LIMIT (Nat.le_refl _)).2.2 1
     (by decide) (by decide)⟩

end Spdy
